import Mathlib

/-!
Verification development for the Nordic Secure DFU BLE upload engine
(`nordicsemi/dfu/dfu_transport_bleak.py` and `nordicsemi/dfu/ble_common.py`).

The shallow embedding below translates, from the Python source:
  * the zlib CRC-32 used via `binascii.crc32` (bit-reflected, polynomial
    0xEDB88320, pre- and post-xor with 0xFFFFFFFF);
  * `DfuDevice.__stream_data` (fragmenting, CRC bookkeeping, PRN checkpoints);
  * `DfuDevice.send_init_packet` and `DfuDevice.send_firmware`, including their
    inner `try_to_recover` closures and the per-object retry loops;
  * the control-point codec `cp_txd_pack` / `cp_rxd_parse_header`.

Device interaction is modelled by an oracle giving the device's answer to every
`CRC_GET` as a function of the host cursor, and by passing the `OBJECT_SELECT`
response `(max_size, offset, crc)` as an explicit argument.  All other
control-point commands are acknowledged with SUCCESS; the traces record every
command and data-point write the engine issues, so ordering claims are stated
over traces.
-/

namespace NrfDfu

/-- Bytes of a payload (Python `bytes` elements). -/
abbrev Byte := Fin 256

/-! ## CRC-32 (binascii.crc32) -/

/-- All-ones 32-bit mask, the pre/post xor constant of zlib CRC-32. -/
def M32 : Nat := 0xFFFFFFFF

/-- One shift step of the bit-reflected CRC-32 with polynomial 0xEDB88320. -/
def crcShift (c : Nat) : Nat :=
  if c % 2 = 1 then (c / 2) ^^^ 0xEDB88320 else c / 2

/-- Fold one input byte into the raw (pre-inverted) CRC state. -/
def crcByte (c : Nat) (b : Byte) : Nat :=
  crcShift^[8] (c ^^^ b.val)

/-- Raw CRC state after folding a byte list. -/
def crcRaw (s : Nat) (data : List Byte) : Nat :=
  data.foldl crcByte s

/-- `binascii.crc32(data, crc)`: invert, fold, invert back. -/
def crc32 (data : List Byte) (crc : Nat) : Nat :=
  crcRaw (crc ^^^ M32) data ^^^ M32

/-- The source idiom `crc32(data, crc) & 0xFFFFFFFF`; masking with the all-ones
32-bit constant is reduction mod 2^32. -/
def crc32m (data : List Byte) (crc : Nat) : Nat :=
  crc32 data crc % 2 ^ 32

/-! ## Fragmenting

`__stream_data` slices its payload as
`for i in range(0, len(data), self.packet_size): data[i : i + self.packet_size]`.
`chunks n l` is that fragment list (for `n ≥ 1`; the transport fixes
`packet_size = 20`). -/

/-- Structural worker for `chunks`: `i` counts the elements still owed to the
chunk currently being filled, `n` the chunk size; the first component is the
tail of the current chunk, the second the chunks after it. -/
def chunksAux : List Byte → Nat → Nat → List Byte × List (List Byte)
  | [], _, _ => ([], [])
  | x :: xs, 0, n =>
    let r := chunksAux xs (n - 1) n
    ([], (x :: r.1) :: r.2)
  | x :: xs, i + 1, n =>
    let r := chunksAux xs i n
    (x :: r.1, r.2)

def chunks (n : Nat) (l : List Byte) : List (List Byte) :=
  (chunksAux l 0 n).2

/-! ## Events and device oracle -/

/-- Observable actions of the engine: control-point commands and data-point
writes, in program order. -/
inductive Ev where
  | select (objType : Nat)
  | create (objType : Nat) (size : Nat)
  | execute
  | crcGet
  | write (packet : List Byte)
deriving DecidableEq

/-- Errors the modelled phases can surface. `validation` is
`ValidationException`; `initTooLong` is the `Exception("Init command is too
long")` raised in `send_init_packet`. -/
inductive Err where
  | validation
  | initTooLong
deriving DecidableEq

/-- Device answer to a `CRC_GET`, as a function of the host cursor at the
moment of the request: `dev offset crc = (device offset, device crc)`. -/
abbrev Dev := Nat → Nat → Nat × Nat

/-- A device whose `CRC_GET` answers always mirror the host cursor, so
checkpoints always succeed. -/
def idealDev : Dev := fun offset crc => (offset, crc)

/-- A device whose `CRC_GET` answers never match the host CRC, so every
checkpoint raises `ValidationException`. -/
def badDev : Dev := fun offset crc => (offset, crc + 1)

/-- `DfuDevice._validate_crc`: issue `CRC_GET`, compare the CRC and then the
offset against the host cursor; any mismatch raises `ValidationException`. -/
def validateOk (dev : Dev) (crc offset : Nat) : Bool :=
  (dev offset crc).2 == crc && (dev offset crc).1 == offset

/-! ## Packet streaming (`DfuDevice.__stream_data`) -/

/-- Core of `__stream_data`, over the fragment list.  `pnr` is `current_pnr`.
Per fragment: write it, update `crc ← crc32(fragment, crc) & 0xFFFFFFFF` and
`offset += len(fragment)`, bump the counter, and when `self.prn == current_pnr`
reset the counter and checkpoint.  After the last fragment one final
checkpoint runs.  Returns the event trace and, on success, the final host
`(crc, offset)`; `none` models a raised `ValidationException`. -/
def streamChunks (prn : Nat) (dev : Dev) :
    List (List Byte) → Nat → Nat → Nat → List Ev × Option (Nat × Nat)
  | [], crc, offset, _pnr =>
    ([Ev.crcGet], if validateOk dev crc offset then some (crc, offset) else none)
  | p :: ps, crc, offset, pnr =>
    let crc2 := crc32m p crc
    let offset2 := offset + p.length
    if prn = pnr + 1 then
      if validateOk dev crc2 offset2 then
        let r := streamChunks prn dev ps crc2 offset2 0
        (Ev.write p :: Ev.crcGet :: r.1, r.2)
      else ([Ev.write p, Ev.crcGet], none)
    else
      let r := streamChunks prn dev ps crc2 offset2 (pnr + 1)
      (Ev.write p :: r.1, r.2)

/-- `DfuDevice.__stream_data(data, crc, offset)` with fragment size `pkt`. -/
def streamData (prn pkt : Nat) (dev : Dev) (data : List Byte) (crc offset : Nat) :
    List Ev × Option (Nat × Nat) :=
  streamChunks prn dev (chunks pkt data) crc offset 0

/-! ## Object types and opcodes (`ble_common.OBJ_TYPE`, `ble_common.OP_CODE`) -/

def OBJ_COMMAND : Nat := 0x01
def OBJ_DATA : Nat := 0x02

def OP_PROTOCOL_VERSION : Nat := 0x00
def OP_OBJECT_CREATE : Nat := 0x01
def OP_PRN_SET : Nat := 0x02
def OP_CRC_GET : Nat := 0x03
def OP_OBJECT_EXECUTE : Nat := 0x04
def OP_OBJECT_SELECT : Nat := 0x06
def OP_MTU_GET : Nat := 0x07
def OP_OBJECT_WRITE : Nat := 0x08
def OP_PING : Nat := 0x09
def OP_HARDWARE_VERSION : Nat := 0x0A
def OP_FIRMWARE_VERSION : Nat := 0x0B
def OP_ABORT : Nat := 0x0C
def OP_RESPONSE : Nat := 0x60

/-- Members of the `OP_CODE` IntEnum; `OP_CODE(v)` succeeds exactly on these. -/
def opCodes : List Nat :=
  [0x00, 0x01, 0x02, 0x03, 0x04, 0x06, 0x07, 0x08, 0x09, 0x0A, 0x0B, 0x0C, 0x60]

def isOpCode (n : Nat) : Bool := opCodes.contains n

/-- Members of the `RES_CODE` IntEnum (note: SUCCESS is 1, not 0). -/
def resCodes : List Nat := [0x01, 0x02, 0x03, 0x04, 0x05, 0x07, 0x08, 0x0A, 0x0B]

def isResCode (n : Nat) : Bool := resCodes.contains n

def RES_SUCCESS : Nat := 0x01
def RES_EXT_ERROR : Nat := 0x0B

/-! ## Init-packet phase (`DfuDevice.send_init_packet`) -/

/-- Inner `try_to_recover` of `send_init_packet`, run against the
`OBJECT_SELECT(COMMAND)` response fields `offset` and `crc`.  Returns the
events it issued and whether it returned `True`. -/
def initRecover (prn pkt : Nat) (dev : Dev) (offset crc : Nat) (ip : List Byte) :
    List Ev × Bool :=
  if offset = 0 ∨ offset > ip.length then ([], false)
  else
    let expected := crc32m (ip.take offset) 0
    if expected ≠ crc then ([], false)
    else if ip.length > offset then
      let r := streamData prn pkt dev (ip.drop offset) expected offset
      match r.2 with
      | none => (r.1, false)
      | some _ => (r.1 ++ [Ev.execute], true)
    else ([Ev.execute], true)

/-- `DfuDevice.send_init_packet` on a given `OBJECT_SELECT(COMMAND)` response
`(maxSize, offset, crc)`.  In the source's retry loop the `break` statement
sits after (outside) the `except ValidationException: pass` handler, so the
loop body runs exactly once, a `ValidationException` raised by it is
suppressed, and the `for`/`else` branch raising
`NordicSemiException("Failed to send init packet")` is unreachable. -/
def sendInitPacket (prn pkt : Nat) (dev : Dev) (maxSize offset crc : Nat)
    (ip : List Byte) : List Ev × Except Err Unit :=
  let base := [Ev.select OBJ_COMMAND]
  if ip.length > maxSize then (base, Except.error Err.initTooLong)
  else
    let rcv := initRecover prn pkt dev offset crc ip
    if rcv.2 then (base ++ rcv.1, Except.ok ())
    else
      let s := streamData prn pkt dev ip 0 0
      match s.2 with
      | none =>
        (base ++ rcv.1 ++ (Ev.create OBJ_COMMAND ip.length :: s.1), Except.ok ())
      | some _ =>
        (base ++ rcv.1 ++ (Ev.create OBJ_COMMAND ip.length :: s.1) ++ [Ev.execute],
          Except.ok ())

/-! ## Firmware phase (`DfuDevice.send_firmware`) -/

/-- Inner `try_to_recover` of `send_firmware`.  It mutates the response dict;
here it returns the events it issued together with the updated
`(offset, crc)`. -/
def fwRecover (prn pkt : Nat) (dev : Dev) (maxSize offset crc : Nat)
    (fw : List Byte) : List Ev × Nat × Nat :=
  if offset = 0 then ([], offset, crc)
  else
    let expected := crc32m (fw.take offset) 0
    let remainder := offset % maxSize
    if expected ≠ crc then
      let offset2 := offset - (if remainder ≠ 0 then remainder else maxSize)
      ([], offset2, crc32m (fw.take offset2) 0)
    else if remainder ≠ 0 ∧ offset ≠ fw.length then
      let toSend := (fw.drop offset).take (maxSize - remainder)
      let r := streamData prn pkt dev toSend crc offset
      match r.2 with
      | some res => (r.1 ++ [Ev.execute], offset + toSend.length, res.1)
      | none =>
        let offset2 := offset - remainder
        (r.1, offset2, crc32m (fw.take offset2) 0)
    else ([Ev.execute], offset, crc)

/-- Page start indices of the main loop:
`range(response["offset"], len(firmware), response["max_size"])`. -/
def fwPages (start len step : Nat) : List Nat :=
  List.range' start ((len - start + step - 1) / step) step

/-- Main per-page loop of `send_firmware` over the page start indices.  As in
`send_init_packet`, the inner retry loop runs its body exactly once per page:
a `ValidationException` is suppressed by `pass` and the unconditional `break`
prevents any retry, so the loop's `else` branch raising
`NordicSemiException("Failed to send firmware")` is unreachable; on a
suppressed failure the stale `crc` is carried into the next page. -/
def fwMainLoop (prn pkt : Nat) (dev : Dev) (maxSize : Nat) (fw : List Byte) :
    List Nat → Nat → List Ev
  | [], _ => []
  | i :: rest, crc =>
    let data := (fw.drop i).take maxSize
    let r := streamData prn pkt dev data crc i
    match r.2 with
    | some res =>
      Ev.create OBJ_DATA data.length :: r.1 ++ [Ev.execute]
        ++ fwMainLoop prn pkt dev maxSize fw rest res.1
    | none =>
      Ev.create OBJ_DATA data.length :: r.1 ++ fwMainLoop prn pkt dev maxSize fw rest crc

/-- `DfuDevice.send_firmware` on a given `OBJECT_SELECT(DATA)` response
`(maxSize, offset, crc)`.  No exception can escape (see `fwMainLoop`), so the
result is just the event trace. -/
def sendFirmware (prn pkt : Nat) (dev : Dev) (maxSize offset crc : Nat)
    (fw : List Byte) : List Ev :=
  let rcv := fwRecover prn pkt dev maxSize offset crc fw
  Ev.select OBJ_DATA :: rcv.1
    ++ fwMainLoop prn pkt dev maxSize fw (fwPages rcv.2.1 fw.length maxSize) rcv.2.2

/-! ## Control-point codec (`ble_common.cp_txd_pack`, `cp_rxd_parse_header`) -/

/-- Python keyword-argument names accepted anywhere by `cp_txd_pack`. -/
inductive Key where
  | prn
  | object_type
  | size
  | id
deriving DecidableEq, BEq

/-- Exceptions `cp_txd_pack` can raise: failed `assert len(kwargs) == …`,
a missing keyword (`KeyError`), `OBJ_TYPE(obj_type)` on an invalid value
(`ValueError`), and `struct.pack` range violations (`struct.error`). -/
inductive PackErr where
  | assertionError
  | keyError
  | valueError
  | structError
deriving DecidableEq

/-- Little-endian `<H` encoding of a 16-bit value. -/
def u16le (n : Nat) : List Nat := [n % 256, n / 256 % 256]

/-- Little-endian `<I` encoding of a 32-bit value. -/
def u32le (n : Nat) : List Nat :=
  [n % 256, n / 256 % 256, n / 65536 % 256, n / 16777216 % 256]

/-- `ble_common.cp_txd_pack(opcode, **kwargs)`.  `kwargs` is the keyword
dictionary as an association list.  Every opcode other than `PRN_SET`,
`OBJECT_SELECT` and `OBJECT_CREATE` falls through to
`assert len(kwargs) == 0; struct.pack("<B", opcode)`. -/
def cp_txd_pack (opcode : Nat) (kwargs : List (Key × Nat)) :
    Except PackErr (List Nat) :=
  if opcode = OP_PRN_SET then
    if kwargs.length ≠ 1 then Except.error PackErr.assertionError
    else
      match kwargs.lookup Key.prn with
      | none => Except.error PackErr.keyError
      | some prn =>
        if prn < 2 ^ 16 then Except.ok (opcode :: u16le prn)
        else Except.error PackErr.structError
  else if opcode = OP_OBJECT_SELECT then
    if kwargs.length ≠ 1 then Except.error PackErr.assertionError
    else
      match kwargs.lookup Key.object_type with
      | none => Except.error PackErr.keyError
      | some t =>
        if t = OBJ_COMMAND ∨ t = OBJ_DATA then Except.ok [opcode, t]
        else Except.error PackErr.valueError
  else if opcode = OP_OBJECT_CREATE then
    if kwargs.length ≠ 2 then Except.error PackErr.assertionError
    else
      match kwargs.lookup Key.object_type with
      | none => Except.error PackErr.keyError
      | some t =>
        if t = OBJ_COMMAND ∨ t = OBJ_DATA then
          match kwargs.lookup Key.size with
          | none => Except.error PackErr.keyError
          | some s =>
            if s < 2 ^ 32 then Except.ok (opcode :: t :: u32le s)
            else Except.error PackErr.structError
        else Except.error PackErr.valueError
    else
      if kwargs.length ≠ 0 then Except.error PackErr.assertionError
      else if opcode < 256 then Except.ok [opcode]
      else Except.error PackErr.structError

/-- Exceptions `cp_rxd_parse_header` can raise: `ValueError` from converting an
unknown outstanding opcode, and `NrfDfuOperationError` for every in-band
failure. -/
inductive HdrErr where
  | valueError
  | operationError
deriving DecidableEq

/-- `ble_common.cp_rxd_parse_header(opcode, data)`.  Checks, in source order:
the outstanding opcode converts to `OP_CODE`; the frame has at least 3 bytes;
`data[1]` converts to `OP_CODE` and equals the outstanding opcode; `data[2]`
converts to `RES_CODE`; on `EXT_ERROR` every sub-path raises
`NrfDfuOperationError`; a non-SUCCESS result raises; otherwise the payload
`data[3:]` is returned.  The first byte `data[0]` is never examined. -/
def cp_rxd_parse_header (opcode : Nat) (data : List Nat) :
    Except HdrErr (List Nat) :=
  if ¬ isOpCode opcode then Except.error HdrErr.valueError
  else
    match data with
    | _b0 :: b1 :: b2 :: rest =>
      if ¬ isOpCode b1 then Except.error HdrErr.operationError
      else if b1 ≠ opcode then Except.error HdrErr.operationError
      else if ¬ isResCode b2 then Except.error HdrErr.operationError
      else if b2 = RES_EXT_ERROR then Except.error HdrErr.operationError
      else if b2 ≠ RES_SUCCESS then Except.error HdrErr.operationError
      else Except.ok rest
    | _ => Except.error HdrErr.operationError

/-! ## Trace observations -/

/-- Concatenation of all data-point packets written in a trace. -/
def writtenBytes (t : List Ev) : List Byte :=
  (t.filterMap (fun e =>
    match e with
    | Ev.write p => some p
    | _ => none)).flatten

/-- Recognise `OBJECT_CREATE` events. -/
def isCreate : Ev → Bool
  | Ev.create _ _ => true
  | _ => false

/-- Recognise `CRC_GET` events. -/
def isCrcGet : Ev → Bool
  | Ev.crcGet => true
  | _ => false

/-- Left fold of the masked incremental CRC update over a fragment list, as the
streaming loop performs it. -/
def foldCrc (frags : List (List Byte)) (crc : Nat) : Nat :=
  frags.foldl (fun c p => crc32m p c) crc

/-- Trace shape demanded by the PRN-cadence claim for PRN = N > 0: counting
fragments from 1, a `CRC_GET` follows every fragment whose ordinal is a
multiple of N, and one final `CRC_GET` closes the stream. -/
def cadenceTrace (N : Nat) (frags : List (List Byte)) : List Ev :=
  ((frags.enumFrom 1).map (fun ip =>
    if ip.1 % N = 0 then [Ev.write ip.2, Ev.crcGet] else [Ev.write ip.2])).flatten
    ++ [Ev.crcGet]

/-! ## Sample inputs for concrete instances -/

/-- A three-byte init packet. -/
def ip3 : List Byte := [10, 20, 30]

/-- A four-byte payload. -/
def sampleP : List Byte := [1, 2, 3, 4]

/-- An eight-byte firmware image (two 4-byte pages). -/
def fw8 : List Byte := [1, 2, 3, 4, 5, 6, 7, 8]

/-! ## Fragmenting lemmas -/

theorem chunksAux_fst (n : Nat) :
    ∀ (l : List Byte) (i : Nat), (chunksAux l i n).1 = l.take i := by
  intro l
  induction l with
  | nil => intro i; simp [chunksAux]
  | cons x xs ih =>
    intro i
    cases i with
    | zero => simp [chunksAux]
    | succ j => simp [chunksAux, ih j]

theorem chunksAux_snd (n : Nat) :
    ∀ (l : List Byte) (i : Nat), (chunksAux l i n).2 = (chunksAux (l.drop i) 0 n).2 := by
  intro l
  induction l with
  | nil => intro i; simp [chunksAux]
  | cons x xs ih =>
    intro i
    cases i with
    | zero => simp
    | succ j => simp [chunksAux, ih j]

theorem chunks_nil (n : Nat) : chunks n [] = [] := rfl

/-- `chunks` satisfies the slicing recurrence of the Python loop: the fragment
at offset 0 is `data[0:n]` and the rest is the chunking of `data[n:]`. -/
theorem chunks_cons (n : Nat) (x : Byte) (xs : List Byte) :
    chunks n (x :: xs) = (x :: xs.take (n - 1)) :: chunks n (xs.drop (n - 1)) := by
  simp [chunks, chunksAux, chunksAux_fst, chunksAux_snd]

theorem chunks_flatten_fuel (n : Nat) :
    ∀ (k : Nat) (l : List Byte), l.length ≤ k → (chunks n l).flatten = l := by
  intro k
  induction k with
  | zero =>
    intro l hl
    cases l with
    | nil => rfl
    | cons x xs => simp at hl
  | succ k ih =>
    intro l hl
    cases l with
    | nil => rfl
    | cons x xs =>
      rw [chunks_cons]
      have hd : (xs.drop (n - 1)).length ≤ k := by
        simp only [List.length_drop]
        simp only [List.length_cons] at hl
        omega
      simp [ih _ hd]

/-- Refragmenting is lossless: the chunks concatenate back to the payload. -/
theorem chunks_flatten (n : Nat) (l : List Byte) : (chunks n l).flatten = l :=
  chunks_flatten_fuel n l.length l (Nat.le_refl _)

/-! ## CRC-32 lemmas -/

theorem crcShift_lt {c : Nat} (h : c < 2 ^ 32) : crcShift c < 2 ^ 32 := by
  unfold crcShift
  have h2 : c / 2 < 2 ^ 32 := lt_of_le_of_lt (Nat.div_le_self c 2) h
  split
  · exact Nat.xor_lt_two_pow h2 (by norm_num)
  · exact h2

theorem crcShift_iter_lt (n : Nat) {c : Nat} (h : c < 2 ^ 32) :
    crcShift^[n] c < 2 ^ 32 := by
  induction n generalizing c with
  | zero => simpa using h
  | succ k ih =>
    rw [Function.iterate_succ_apply]
    exact ih (crcShift_lt h)

theorem crcByte_lt {c : Nat} (b : Byte) (h : c < 2 ^ 32) : crcByte c b < 2 ^ 32 :=
  crcShift_iter_lt 8 (Nat.xor_lt_two_pow h (lt_of_lt_of_le b.isLt (by norm_num)))

theorem crcRaw_lt (data : List Byte) : ∀ {s : Nat}, s < 2 ^ 32 → crcRaw s data < 2 ^ 32 := by
  induction data with
  | nil => intro s h; exact h
  | cons x xs ih =>
    intro s h
    simpa [crcRaw] using ih (crcByte_lt x h)

theorem M32_lt : M32 < 2 ^ 32 := by norm_num [M32]

/-- `binascii.crc32` stays below 2^32 whenever its seed does. -/
theorem crc32_lt (data : List Byte) {c : Nat} (h : c < 2 ^ 32) : crc32 data c < 2 ^ 32 :=
  Nat.xor_lt_two_pow (crcRaw_lt data (Nat.xor_lt_two_pow h M32_lt)) M32_lt

/-- The `& 0xFFFFFFFF` in the source is a no-op on in-range seeds. -/
theorem crc32m_eq (data : List Byte) {c : Nat} (h : c < 2 ^ 32) :
    crc32m data c = crc32 data c := by
  unfold crc32m
  exact Nat.mod_eq_of_lt (crc32_lt data h)

theorem crcRaw_append (s : Nat) (a b : List Byte) :
    crcRaw s (a ++ b) = crcRaw (crcRaw s a) b :=
  List.foldl_append crcByte s a b

/-- Incremental CRC composition: feeding `b` with the CRC of `a` as seed gives
the one-pass CRC of `a ++ b`. -/
theorem crc32_append (a b : List Byte) (c : Nat) :
    crc32 (a ++ b) c = crc32 b (crc32 a c) := by
  simp [crc32, crcRaw_append, Nat.xor_cancel_right]

/-- The masked fold the streaming loop computes equals the one-pass CRC. -/
theorem foldCrc_eq (frags : List (List Byte)) :
    ∀ {c : Nat}, c < 2 ^ 32 → foldCrc frags c = crc32 frags.flatten c := by
  induction frags with
  | nil => intro c _; simp [foldCrc, crc32, crcRaw, Nat.xor_cancel_right]
  | cons p ps ih =>
    intro c hc
    have hp : crc32m p c = crc32 p c := crc32m_eq p hc
    have hlt : crc32 p c < 2 ^ 32 := crc32_lt p hc
    simp [foldCrc, List.foldl_cons, hp]
    rw [show ps.foldl (fun c p => crc32m p c) (crc32 p c) = foldCrc ps (crc32 p c) from rfl]
    rw [ih hlt, crc32_append]

/-! ## Trace helper lemmas -/

@[simp]
theorem writtenBytes_nil : writtenBytes [] = [] := rfl

@[simp]
theorem writtenBytes_cons_write (p : List Byte) (t : List Ev) :
    writtenBytes (Ev.write p :: t) = p ++ writtenBytes t := by
  simp [writtenBytes]

@[simp]
theorem writtenBytes_cons_crcGet (t : List Ev) :
    writtenBytes (Ev.crcGet :: t) = writtenBytes t := by
  simp [writtenBytes]

@[simp]
theorem writtenBytes_cons_select (o : Nat) (t : List Ev) :
    writtenBytes (Ev.select o :: t) = writtenBytes t := by
  simp [writtenBytes]

@[simp]
theorem writtenBytes_cons_create (o s : Nat) (t : List Ev) :
    writtenBytes (Ev.create o s :: t) = writtenBytes t := by
  simp [writtenBytes]

@[simp]
theorem writtenBytes_cons_execute (t : List Ev) :
    writtenBytes (Ev.execute :: t) = writtenBytes t := by
  simp [writtenBytes]

@[simp]
theorem writtenBytes_append (a b : List Ev) :
    writtenBytes (a ++ b) = writtenBytes a ++ writtenBytes b := by
  simp [writtenBytes, List.filterMap_append]

@[simp]
theorem validateOk_ideal (crc offset : Nat) : validateOk idealDev crc offset = true := by
  simp [validateOk, idealDev]

/-! ## Streaming lemmas -/

/-- With a device that always confirms the host cursor, streaming succeeds: the
final cursor is the folded CRC with the offset advanced by the bytes streamed,
the data-point writes are exactly the fragments in order, and no
`OBJECT_CREATE` appears in the trace. -/
theorem streamChunks_ideal (prn : Nat) (frags : List (List Byte)) :
    ∀ (crc offset pnr : Nat),
      (streamChunks prn idealDev frags crc offset pnr).2
          = some (foldCrc frags crc, offset + frags.flatten.length)
      ∧ writtenBytes (streamChunks prn idealDev frags crc offset pnr).1 = frags.flatten
      ∧ (streamChunks prn idealDev frags crc offset pnr).1.countP isCreate = 0 := by
  induction frags with
  | nil =>
    intro crc offset pnr
    simp [streamChunks, foldCrc, isCreate]
  | cons p ps ih =>
    intro crc offset pnr
    obtain ⟨ha, hb, hcnt⟩ := ih (crc32m p crc) (offset + p.length) 0
    obtain ⟨ha', hb', hcnt'⟩ := ih (crc32m p crc) (offset + p.length) (pnr + 1)
    by_cases hc : prn = pnr + 1
    · subst hc
      refine ⟨?_, ?_, ?_⟩ <;>
        simp [streamChunks, ha, hb, hcnt, foldCrc, isCreate, List.countP_cons,
          Nat.add_assoc]
    · refine ⟨?_, ?_, ?_⟩ <;>
        simp [streamChunks, hc, ha', hb', hcnt', foldCrc, isCreate, List.countP_cons,
          Nat.add_assoc]

/-- The per-fragment branch of `cadenceTrace` depends on the ordinal only mod
N, so the starting ordinal can be moved along a congruence. -/
theorem cadence_map_congr (N : Nat) (frags : List (List Byte)) :
    ∀ (a b : Nat), a % N = b % N →
      (frags.enumFrom a).map (fun ip =>
          if ip.1 % N = 0 then [Ev.write ip.2, Ev.crcGet] else [Ev.write ip.2])
        = (frags.enumFrom b).map (fun ip =>
          if ip.1 % N = 0 then [Ev.write ip.2, Ev.crcGet] else [Ev.write ip.2]) := by
  induction frags with
  | nil => intro a b _; rfl
  | cons p ps ih =>
    intro a b h
    have h1 : (a + 1) % N = (b + 1) % N := by
      rw [Nat.add_mod, h, ← Nat.add_mod]
    simp only [List.enumFrom, List.map_cons, h, ih (a + 1) (b + 1) h1]

/-- Checkpoint cadence of the streaming loop, generalised over the entry value
of `current_pnr`. -/
theorem streamChunks_cadence (N : Nat) (hN : 0 < N) (frags : List (List Byte)) :
    ∀ (crc offset pnr : Nat), pnr < N →
      (streamChunks N idealDev frags crc offset pnr).1
        = ((frags.enumFrom (pnr + 1)).map (fun ip =>
            if ip.1 % N = 0 then [Ev.write ip.2, Ev.crcGet] else [Ev.write ip.2])).flatten
          ++ [Ev.crcGet] := by
  induction frags with
  | nil =>
    intro crc offset pnr _
    simp [streamChunks]
  | cons p ps ih =>
    intro crc offset pnr hpnr
    by_cases hc : N = pnr + 1
    · subst hc
      have hmod : (pnr + 1) % (pnr + 1) = 0 := Nat.mod_self (pnr + 1)
      have hnext : (pnr + 1 + 1) % (pnr + 1) = 1 % (pnr + 1) := by
        rw [Nat.add_mod, hmod]
        simp
      have hrec := ih (crc32m p crc) (offset + p.length) 0 hN
      have hcg := cadence_map_congr (pnr + 1) ps (pnr + 1 + 1) (0 + 1) (by simp [hnext])
      simp only [streamChunks, validateOk_ideal, if_true, List.enumFrom,
        List.map_cons, List.flatten_cons, hmod, if_pos rfl]
      simp [hrec, hcg]
    · have hlt : pnr + 1 < N := by omega
      have hmod : (pnr + 1) % N ≠ 0 := by
        rw [Nat.mod_eq_of_lt hlt]
        omega
      have hrec := ih (crc32m p crc) (offset + p.length) (pnr + 1) hlt
      simp only [streamChunks, hc, List.enumFrom, List.map_cons, List.flatten_cons]
      simp [hrec, hmod, hc]

/-- With PRN = 0 the guard `self.prn == current_pnr` never fires (the counter
is at least 1 when compared), so no intermediate checkpoint is issued. -/
theorem streamChunks_prn0 (frags : List (List Byte)) :
    ∀ (crc offset pnr : Nat),
      (streamChunks 0 idealDev frags crc offset pnr).1
        = frags.map Ev.write ++ [Ev.crcGet] := by
  induction frags with
  | nil =>
    intro crc offset pnr
    simp [streamChunks]
  | cons p ps ih =>
    intro crc offset pnr
    have hz : ¬ (0 = pnr + 1) := by omega
    simp [streamChunks, hz, ih]

/-! ## Claim theorems -/

/-- C4: streaming a payload P from the cursor (offset 0, crc 0) ends with host
CRC `crc32(P)` (one pass) and host offset `len(P)`, for every `packet_size`
fragmentation; and folding the incremental CRC update over any fragment list
equals the one-pass CRC of the concatenation. -/
theorem C4_stream_crc_one_pass :
    (∀ (prn pkt : Nat) (P : List Byte), 0 < pkt →
        (streamData prn pkt idealDev P 0 0).2 = some (crc32 P 0, P.length))
    ∧ (∀ (frags : List (List Byte)) (c : Nat), c < 2 ^ 32 →
        foldCrc frags c = crc32 frags.flatten c) := by
  constructor
  · intro prn pkt P _hpkt
    have h := (streamChunks_ideal prn (chunks pkt P) 0 0 0).1
    have hfold : foldCrc (chunks pkt P) 0 = crc32 P 0 := by
      rw [foldCrc_eq _ (by norm_num), chunks_flatten]
    rw [streamData, h, chunks_flatten, hfold]
    simp
  · intro frags c hc
    exact foldCrc_eq frags hc

/-- Witness for C4 at PRN 3, packet size 2 and the four-byte payload. -/
theorem C4_stream_crc_one_pass_witness :
    (streamData 3 2 idealDev sampleP 0 0).2 = some (crc32 sampleP 0, sampleP.length) :=
  C4_stream_crc_one_pass.1 3 2 sampleP (by decide)

/-- C5: during streaming, PRN = N > 0 issues a `CRC_GET` after every exactly N
fragments plus one final `CRC_GET`; PRN = 0 issues no intermediate checkpoint,
only the single final `CRC_GET`. -/
theorem C5_prn_cadence :
    (∀ (N pkt : Nat) (data : List Byte), 0 < N →
        (streamData N pkt idealDev data 0 0).1 = cadenceTrace N (chunks pkt data))
    ∧ (∀ (pkt : Nat) (data : List Byte),
        (streamData 0 pkt idealDev data 0 0).1
          = (chunks pkt data).map Ev.write ++ [Ev.crcGet]) := by
  constructor
  · intro N pkt data hN
    rw [streamData, streamChunks_cadence N hN _ 0 0 0 hN]
    rfl
  · intro pkt data
    rw [streamData, streamChunks_prn0]

/-- Witness for C5 at PRN 2, packet size 1 and a three-byte payload. -/
theorem C5_prn_cadence_witness :
    (streamData 2 1 idealDev ip3 0 0).1 = cadenceTrace 2 (chunks 1 ip3) :=
  C5_prn_cadence.1 2 1 ip3 (by decide)

/-- C6: when `SELECT(COMMAND)` reports `0 < offset ≤ len(init)` with a CRC
matching `crc32(init[:offset])` (and the init packet fits `max_size`),
`send_init_packet` issues no `OBJECT_CREATE`, streams exactly
`init_packet[offset:]` from the reported cursor (nothing when
`offset = len(init)`), issues `OBJECT_EXECUTE` and completes the phase. -/
theorem C6_init_resume (prn pkt maxSize offset crc : Nat) (ip : List Byte)
    (hsz : ip.length ≤ maxSize) (h0 : 0 < offset) (hle : offset ≤ ip.length)
    (hcrc : crc = crc32m (ip.take offset) 0) :
    (sendInitPacket prn pkt idealDev maxSize offset crc ip).2 = Except.ok ()
    ∧ (sendInitPacket prn pkt idealDev maxSize offset crc ip).1.countP isCreate = 0
    ∧ writtenBytes (sendInitPacket prn pkt idealDev maxSize offset crc ip).1
        = ip.drop offset
    ∧ (offset < ip.length →
        (sendInitPacket prn pkt idealDev maxSize offset crc ip).1
          = Ev.select OBJ_COMMAND ::
              ((streamData prn pkt idealDev (ip.drop offset) crc offset).1 ++ [Ev.execute]))
    ∧ (offset = ip.length →
        (sendInitPacket prn pkt idealDev maxSize offset crc ip).1
          = [Ev.select OBJ_COMMAND, Ev.execute]) := by
  have hg1 : ¬ (offset = 0 ∨ offset > ip.length) := by omega
  have hexp : ¬ (crc32m (ip.take offset) 0 ≠ crc) := by simp [hcrc]
  have hmax : ¬ (ip.length > maxSize) := by omega
  rcases eq_or_lt_of_le hle with heq | hlt
  · have hng : ¬ (ip.length > offset) := by omega
    have hr : initRecover prn pkt idealDev offset crc ip = ([Ev.execute], true) := by
      unfold initRecover
      rw [if_neg hg1, if_neg hexp, if_neg hng]
    have hfull : sendInitPacket prn pkt idealDev maxSize offset crc ip
        = ([Ev.select OBJ_COMMAND, Ev.execute], Except.ok ()) := by
      unfold sendInitPacket
      rw [if_neg hmax, hr]
      rfl
    refine ⟨by rw [hfull], by rw [hfull]; rfl, ?_, ?_, ?_⟩
    · rw [hfull, heq]
      simp
    · intro hcon; omega
    · intro _; rw [hfull]
  · have hgt : ip.length > offset := hlt
    have hsi := streamChunks_ideal prn (chunks pkt (ip.drop offset))
      (crc32m (ip.take offset) 0) offset 0
    have hr : initRecover prn pkt idealDev offset crc ip
        = ((streamData prn pkt idealDev (ip.drop offset) (crc32m (ip.take offset) 0) offset).1
            ++ [Ev.execute], true) := by
      unfold initRecover
      rw [if_neg hg1, if_neg hexp, if_pos hgt]
      unfold streamData
      simp only [hsi.1]
    have hfull : sendInitPacket prn pkt idealDev maxSize offset crc ip
        = (Ev.select OBJ_COMMAND ::
            ((streamData prn pkt idealDev (ip.drop offset) crc offset).1 ++ [Ev.execute]),
           Except.ok ()) := by
      unfold sendInitPacket
      rw [if_neg hmax, hr, hcrc]
      rfl
    refine ⟨by rw [hfull], ?_, ?_, ?_, ?_⟩
    · rw [hfull]
      have hcnt : (streamData prn pkt idealDev (ip.drop offset) crc offset).1.countP
          isCreate = 0 := by
        rw [hcrc]; exact hsi.2.2
      simp [List.countP_cons, List.countP_append, isCreate, hcnt]
    · rw [hfull]
      have hwr : writtenBytes (streamData prn pkt idealDev (ip.drop offset) crc offset).1
          = ip.drop offset := by
        rw [hcrc]
        unfold streamData
        rw [hsi.2.1, chunks_flatten]
      simp [hwr]
    · intro _; rw [hfull]
    · intro hcon; omega

/-- Witness for C6: four-byte init packet, resume from offset 2, max size 10. -/
theorem C6_init_resume_witness :
    (sendInitPacket 0 20 idealDev 10 2 (crc32m (sampleP.take 2) 0) sampleP).2
        = Except.ok ()
    ∧ (sendInitPacket 0 20 idealDev 10 2 (crc32m (sampleP.take 2) 0) sampleP).1.countP
        isCreate = 0 :=
  ⟨(C6_init_resume 0 20 10 2 _ sampleP (by decide) (by decide) (by decide) rfl).1,
   (C6_init_resume 0 20 10 2 _ sampleP (by decide) (by decide) (by decide) rfl).2.1⟩

/-- C7: firmware recovery with a mismatching CRC rewinds the offset by
`offset % max_size` when that remainder is nonzero and by `max_size` otherwise,
recomputes the cursor CRC over the new prefix, issues no `OBJECT_EXECUTE`
(indeed no command at all), and the main loop's first page starts at the
rewound offset. -/
theorem C7_firmware_rewind (prn pkt maxSize offset crc off2 : Nat) (dev : Dev)
    (fw : List Byte) (hm : 0 < maxSize) (h0 : offset ≠ 0)
    (hcrc : crc ≠ crc32m (fw.take offset) 0)
    (hoff2 : off2 = offset - (if offset % maxSize ≠ 0 then offset % maxSize else maxSize)) :
    fwRecover prn pkt dev maxSize offset crc fw = ([], off2, crc32m (fw.take off2) 0)
    ∧ (off2 < fw.length → (fwPages off2 fw.length maxSize).head? = some off2) := by
  constructor
  · unfold fwRecover
    rw [if_neg h0, if_pos (Ne.symm hcrc), hoff2]
  · intro hlt
    have hpos : 0 < (fw.length - off2 + maxSize - 1) / maxSize :=
      Nat.div_pos (by omega) hm
    obtain ⟨k, hk⟩ := Nat.exists_eq_succ_of_ne_zero (Nat.pos_iff_ne_zero.mp hpos)
    unfold fwPages
    rw [hk, List.range'_succ]
    rfl

set_option maxRecDepth 100000 in
/-- Witness for C7: eight-byte firmware, page size 4, reported offset 5 with a
wrong CRC; the rewind lands on offset 4. -/
theorem C7_firmware_rewind_witness :
    fwRecover 0 20 idealDev 4 5 0 fw8 = ([], 4, crc32m (fw8.take 4) 0)
    ∧ (fwPages 4 fw8.length 4).head? = some 4 := by
  have h := C7_firmware_rewind 0 20 4 5 0 4 idealDev fw8 (by decide) (by decide)
    (by decide) (by decide)
  exact ⟨h.1, h.2 (by decide)⟩

/-- C8: an init packet longer than the reported `max_size` makes
`send_init_packet` fail right after `OBJECT_SELECT`, with no `OBJECT_CREATE`
and no data-point write. -/
theorem C8_init_too_long (prn pkt maxSize offset crc : Nat) (dev : Dev) (ip : List Byte)
    (h : ip.length > maxSize) :
    sendInitPacket prn pkt dev maxSize offset crc ip
        = ([Ev.select OBJ_COMMAND], Except.error Err.initTooLong)
    ∧ (sendInitPacket prn pkt dev maxSize offset crc ip).1.countP isCreate = 0
    ∧ writtenBytes (sendInitPacket prn pkt dev maxSize offset crc ip).1 = [] := by
  have he : sendInitPacket prn pkt dev maxSize offset crc ip
      = ([Ev.select OBJ_COMMAND], Except.error Err.initTooLong) := by
    unfold sendInitPacket
    rw [if_pos h]
  refine ⟨he, ?_, ?_⟩ <;> rw [he] <;> rfl

/-- Witness for C8: three-byte init packet against max size 2. -/
theorem C8_init_too_long_witness :
    sendInitPacket 0 20 idealDev 2 0 0 ip3
      = ([Ev.select OBJ_COMMAND], Except.error Err.initTooLong) :=
  (C8_init_too_long 0 20 2 0 0 idealDev ip3 (by decide)).1

set_option maxRecDepth 100000 in
/-- C3 counterexample: with `SELECT(DATA)` reporting offset 4 on an eight-byte
firmware with page size 4 (so `offset % max_size = 0`) and a matching CRC, the
recovery path of `send_firmware` does issue `OBJECT_EXECUTE` — its trace is
exactly `[OBJECT_EXECUTE]` — contradicting the claim that recovery issues no
`OBJECT_EXECUTE` in this situation. -/
theorem C3_recovery_executes_on_page_boundary :
    (fwRecover 0 20 idealDev 4 4 (crc32m (fw8.take 4) 0) fw8).1 = [Ev.execute] := rfl

/-- C3 amended: when the reported offset is nonzero and page-aligned and its
CRC matches `crc32(firmware[:offset])`, recovery streams nothing and leaves the
cursor unchanged but does issue one `OBJECT_EXECUTE`; the main per-page loop
then starts at that offset.  (`OBJECT_EXECUTE` is issued by recovery both after
successfully streaming the rest of a partially-written page and directly when
there is nothing left to stream.) -/
theorem C3_recovery_amended (prn pkt maxSize offset : Nat) (dev : Dev) (fw : List Byte)
    (hm : 0 < maxSize) (h0 : offset ≠ 0) (hrem : offset % maxSize = 0) :
    fwRecover prn pkt dev maxSize offset (crc32m (fw.take offset) 0) fw
        = ([Ev.execute], offset, crc32m (fw.take offset) 0)
    ∧ (offset < fw.length → (fwPages offset fw.length maxSize).head? = some offset) := by
  constructor
  · unfold fwRecover
    rw [if_neg h0, if_neg (by simp), if_neg (by simp [hrem])]
  · intro hlt
    have hpos : 0 < (fw.length - offset + maxSize - 1) / maxSize :=
      Nat.div_pos (by omega) hm
    obtain ⟨k, hk⟩ := Nat.exists_eq_succ_of_ne_zero (Nat.pos_iff_ne_zero.mp hpos)
    unfold fwPages
    rw [hk, List.range'_succ]
    rfl

set_option maxRecDepth 100000 in
/-- Witness for the amended C3 at the counterexample's inputs. -/
theorem C3_recovery_amended_witness :
    fwRecover 0 20 idealDev 4 4 (crc32m (fw8.take 4) 0) fw8
        = ([Ev.execute], 4, crc32m (fw8.take 4) 0)
    ∧ (fwPages 4 fw8.length 4).head? = some 4 := by
  have h := C3_recovery_amended 0 20 4 4 idealDev fw8 (by decide) (by decide) (by decide)
  exact ⟨h.1, h.2 (by decide)⟩

set_option maxRecDepth 1000000 in
/-- C1 is a code bug: the `break` of both retry loops sits outside the
`except ValidationException: pass` handler, so against a device whose `CRC_GET`
answers never match, `send_init_packet` performs a single
`OBJECT_CREATE(COMMAND, …)` attempt, swallows the `ValidationException` and
returns success, and `send_firmware` performs a single `OBJECT_CREATE(DATA, …)`
attempt per page (two pages here) with no failure surfaced — instead of the
claimed three attempts per object followed by a phase-failure error. -/
theorem C1_retry_never_happens :
    (sendInitPacket 0 20 badDev 256 0 0 ip3).2 = Except.ok ()
    ∧ (sendInitPacket 0 20 badDev 256 0 0 ip3).1.countP isCreate = 1
    ∧ (sendFirmware 0 20 badDev 4 0 0 fw8).countP isCreate = 2 :=
  ⟨rfl, rfl, rfl⟩

/-- C2 counterexample: a frame whose first byte is 0x00 — not the 0x60
RESPONSE marker — still parses successfully, because `cp_rxd_parse_header`
never examines byte 0. -/
theorem C2_marker_not_checked :
    cp_rxd_parse_header OP_CRC_GET [0x00, OP_CRC_GET, RES_SUCCESS, 0xAA]
      = Except.ok [0xAA] := rfl

/-- Header parsing on a frame of at least three bytes, written as the source's
guard chain (the marker byte `b0` does not occur in it). -/
theorem parse_header_cons (tx b0 b1 b2 : Nat) (rest : List Nat)
    (htx : isOpCode tx = true) :
    cp_rxd_parse_header tx (b0 :: b1 :: b2 :: rest)
      = if ¬ isOpCode b1 then Except.error HdrErr.operationError
        else if b1 ≠ tx then Except.error HdrErr.operationError
        else if ¬ isResCode b2 then Except.error HdrErr.operationError
        else if b2 = RES_EXT_ERROR then Except.error HdrErr.operationError
        else if b2 ≠ RES_SUCCESS then Except.error HdrErr.operationError
        else Except.ok rest := by
  unfold cp_rxd_parse_header
  rw [if_neg (by simp [htx])]

/-- C2 amended: for a known outstanding opcode, decoding succeeds — returning
the payload after the three-byte header — exactly when the frame has at least
3 bytes, byte 1 equals the outstanding opcode and byte 2 is SUCCESS; it fails
otherwise.  Byte 0 (the RESPONSE marker) is never examined. -/
theorem C2_header_parse_amended (tx : Nat) (data : List Nat)
    (htx : isOpCode tx = true) :
    (cp_rxd_parse_header tx data = Except.ok (data.drop 3)
        ↔ 3 ≤ data.length ∧ data[1]? = some tx ∧ data[2]? = some RES_SUCCESS)
    ∧ ∀ out, cp_rxd_parse_header tx data = Except.ok out → out = data.drop 3 := by
  match data with
  | [] =>
    constructor
    · simp [cp_rxd_parse_header, htx]
    · intro out h
      simp [cp_rxd_parse_header, htx] at h
  | [b0] =>
    constructor
    · simp [cp_rxd_parse_header, htx]
    · intro out h
      simp [cp_rxd_parse_header, htx] at h
  | [b0, b1] =>
    constructor
    · simp [cp_rxd_parse_header, htx]
    · intro out h
      simp [cp_rxd_parse_header, htx] at h
  | b0 :: b1 :: b2 :: rest =>
    have hp := parse_header_cons tx b0 b1 b2 rest htx
    constructor
    · rw [hp]
      by_cases h1 : b1 = tx
      · subst h1
        by_cases h2 : b2 = RES_SUCCESS
        · subst h2
          rw [if_neg (by simp [htx]), if_neg (by simp),
            if_neg (by simp [isResCode, resCodes, RES_SUCCESS]),
            if_neg (by decide), if_neg (by simp [RES_SUCCESS])]
          simp
        · constructor
          · intro h
            exfalso
            rw [if_neg (by simp [htx]), if_neg (by simp)] at h
            split_ifs at h
          · rintro ⟨-, -, hx⟩
            simp at hx
            exact absurd hx h2
      · constructor
        · intro h
          exfalso
          split_ifs at h
        · rintro ⟨-, hx, -⟩
          simp at hx
          exact absurd hx h1
    · intro out h
      rw [hp] at h
      split_ifs at h
      simp_all

/-- Witness for the amended C2: a well-formed SUCCESS response to `CRC_GET`. -/
theorem C2_header_parse_amended_witness :
    cp_rxd_parse_header OP_CRC_GET [0x60, OP_CRC_GET, RES_SUCCESS, 0x07]
      = Except.ok [0x07] :=
  (C2_header_parse_amended OP_CRC_GET [0x60, OP_CRC_GET, RES_SUCCESS, 0x07]
    (by decide)).1.mpr (by decide)

/-- C9 counterexample: the request table prescribes `PING id` to encode as the
opcode byte followed by the u8 id, but `cp_txd_pack` has no `PING` branch: any
keyword argument trips the final `assert len(kwargs) == 0`. -/
theorem C9_ping_id_rejected :
    cp_txd_pack OP_PING [(Key.id, 5)] = Except.error PackErr.assertionError := rfl

/-- C9 amended: every table row except `PING` encodes exactly as listed
(`PRN_SET`: u16 LE; `OBJECT_SELECT`: u8 object type; `OBJECT_CREATE`: u8
object type then u32 LE size; `CRC_GET`, `OBJECT_EXECUTE`, `MTU_GET`, `ABORT`:
bare opcode byte).  `PING` takes no argument in this codec: with no kwargs it
encodes as the bare opcode byte, and an `id` argument raises AssertionError. -/
theorem C9_pack_table_amended :
    (∀ prn : Nat, prn < 2 ^ 16 →
        cp_txd_pack OP_PRN_SET [(Key.prn, prn)] = Except.ok (OP_PRN_SET :: u16le prn))
    ∧ (∀ t : Nat, t = OBJ_COMMAND ∨ t = OBJ_DATA →
        cp_txd_pack OP_OBJECT_SELECT [(Key.object_type, t)]
          = Except.ok [OP_OBJECT_SELECT, t])
    ∧ (∀ t s : Nat, t = OBJ_COMMAND ∨ t = OBJ_DATA → s < 2 ^ 32 →
        cp_txd_pack OP_OBJECT_CREATE [(Key.object_type, t), (Key.size, s)]
          = Except.ok (OP_OBJECT_CREATE :: t :: u32le s))
    ∧ cp_txd_pack OP_CRC_GET [] = Except.ok [OP_CRC_GET]
    ∧ cp_txd_pack OP_OBJECT_EXECUTE [] = Except.ok [OP_OBJECT_EXECUTE]
    ∧ cp_txd_pack OP_MTU_GET [] = Except.ok [OP_MTU_GET]
    ∧ cp_txd_pack OP_ABORT [] = Except.ok [OP_ABORT]
    ∧ cp_txd_pack OP_PING [] = Except.ok [OP_PING]
    ∧ (∀ v : Nat, cp_txd_pack OP_PING [(Key.id, v)]
        = Except.error PackErr.assertionError) := by
  refine ⟨?_, ?_, ?_, rfl, rfl, rfl, rfl, rfl, fun v => rfl⟩
  · intro prn h
    rw [show cp_txd_pack OP_PRN_SET [(Key.prn, prn)]
        = if prn < 2 ^ 16 then Except.ok (OP_PRN_SET :: u16le prn)
          else Except.error PackErr.structError from rfl, if_pos h]
  · intro t ht
    rw [show cp_txd_pack OP_OBJECT_SELECT [(Key.object_type, t)]
        = if t = OBJ_COMMAND ∨ t = OBJ_DATA then Except.ok [OP_OBJECT_SELECT, t]
          else Except.error PackErr.valueError from rfl, if_pos ht]
  · intro t s ht hs
    rw [show cp_txd_pack OP_OBJECT_CREATE [(Key.object_type, t), (Key.size, s)]
        = if t = OBJ_COMMAND ∨ t = OBJ_DATA then
            if s < 2 ^ 32 then Except.ok (OP_OBJECT_CREATE :: t :: u32le s)
            else Except.error PackErr.structError
          else Except.error PackErr.valueError from rfl, if_pos ht, if_pos hs]

/-- Witness for the amended C9: a PRN_SET and an OBJECT_CREATE frame. -/
theorem C9_pack_table_amended_witness :
    cp_txd_pack OP_PRN_SET [(Key.prn, 300)] = Except.ok (OP_PRN_SET :: u16le 300)
    ∧ cp_txd_pack OP_OBJECT_CREATE [(Key.object_type, 2), (Key.size, 4096)]
        = Except.ok (OP_OBJECT_CREATE :: 2 :: u32le 4096) :=
  ⟨C9_pack_table_amended.1 300 (by decide),
   C9_pack_table_amended.2.2.1 2 4096 (Or.inr rfl) (by norm_num)⟩

/-- C10: `cp_txd_pack` rejects any object type outside COMMAND (1) and
DATA (2) for both `OBJECT_SELECT` and `OBJECT_CREATE` with a ValueError,
before any frame is built — for `OBJECT_CREATE` even before the size is
range-checked, so no frame with an invalid object-type byte is ever
produced. -/
theorem C10_invalid_object_type (t : Nat) (h1 : t ≠ OBJ_COMMAND) (h2 : t ≠ OBJ_DATA) :
    cp_txd_pack OP_OBJECT_SELECT [(Key.object_type, t)] = Except.error PackErr.valueError
    ∧ ∀ s : Nat, cp_txd_pack OP_OBJECT_CREATE [(Key.object_type, t), (Key.size, s)]
        = Except.error PackErr.valueError := by
  have hnot : ¬ (t = OBJ_COMMAND ∨ t = OBJ_DATA) := by tauto
  constructor
  · rw [show cp_txd_pack OP_OBJECT_SELECT [(Key.object_type, t)]
        = if t = OBJ_COMMAND ∨ t = OBJ_DATA then Except.ok [OP_OBJECT_SELECT, t]
          else Except.error PackErr.valueError from rfl, if_neg hnot]
  · intro s
    rw [show cp_txd_pack OP_OBJECT_CREATE [(Key.object_type, t), (Key.size, s)]
        = if t = OBJ_COMMAND ∨ t = OBJ_DATA then
            if s < 2 ^ 32 then Except.ok (OP_OBJECT_CREATE :: t :: u32le s)
            else Except.error PackErr.structError
          else Except.error PackErr.valueError from rfl, if_neg hnot]

/-- Witness for C10 at object type 3 (and a size beyond the u32 range, showing
the ValueError takes precedence). -/
theorem C10_invalid_object_type_witness :
    cp_txd_pack OP_OBJECT_SELECT [(Key.object_type, 3)] = Except.error PackErr.valueError
    ∧ cp_txd_pack OP_OBJECT_CREATE [(Key.object_type, 3), (Key.size, 2 ^ 40)]
        = Except.error PackErr.valueError :=
  ⟨(C10_invalid_object_type 3 (by decide) (by decide)).1,
   (C10_invalid_object_type 3 (by decide) (by decide)).2 (2 ^ 40)⟩

end NrfDfu
